import Mathlib

/-!
Verification of the VedOps pipeline orchestration and resilience engine
(`src/utils/orchestrator.py`, `src/utils/database.py`, `src/utils/resilience.py`)
against its natural-language specification.

Python dictionaries threaded between stages are modelled as functions
`Key → Option Val`; `{**a, **b}` is `Dict.pyMerge a b` (right operand wins).
Values whose internal structure no claim inspects (nested result blobs,
configuration objects) are modelled by the opaque constructor `Val.blob`.
-/

namespace VedOps

abbrev Key := String

/-- JSON-like values stored in the dicts the pipeline threads between stages.
Structure that no claim inspects is collapsed into `Val.blob`. -/
inductive Val where
  | str (s : String)
  | int (n : Int)
  | blob
deriving DecidableEq, Repr

/-- A Python dict as a partial map from keys to values. -/
def Dict := Key → Option Val

/-- The empty dict `{}`. -/
def Dict.empty : Dict := fun _ => none

/-- Python `{**a, **b}`: keys of `b` override keys of `a`. -/
def Dict.pyMerge (a b : Dict) : Dict :=
  fun k => (b k).orElse (fun _ => a k)

/-- Python `{**a, k: v}` where the literal entry comes last (so it wins). -/
def Dict.insert (a : Dict) (k : Key) (v : Val) : Dict :=
  fun k' => if k' = k then some v else a k'

/-- A singleton dict `{k: v}`. -/
def Dict.single (k : Key) (v : Val) : Dict :=
  fun k' => if k' = k then some v else none

/-- Key membership in a dict. -/
def Dict.hasKey (d : Dict) (k : Key) : Prop := (d k).isSome = true

instance (d : Dict) (k : Key) : Decidable (d.hasKey k) := by
  unfold Dict.hasKey; infer_instance

/-! ## Security score (`DatabaseManager._calculate_security_score`, database.py 534-550)

The source receives `findings_by_severity` (a dict of open-finding counts
keyed by severity) and reads the four weighted severities with `.get(sev, 0)`. -/

/-- Counts of open findings by severity, as read by the score computation. -/
def sevGet (findings : List (String × Nat)) (sev : String) : Nat :=
  match findings.find? (fun p => p.1 = sev) with
  | some p => p.2
  | none => 0

/-- `total_weight` of database.py lines 536-538:
`critical=10, high=5, medium=2, low=1`, other severities ignored. -/
def totalWeight (findings : List (String × Nat)) : Nat :=
  sevGet findings "critical" * 10 + sevGet findings "high" * 5 +
    sevGet findings "medium" * 2 + sevGet findings "low" * 1

/-- `DatabaseManager._calculate_security_score` (database.py lines 534-550). -/
def calculate_security_score (findings : List (String × Nat)) : Nat :=
  let total_weight := totalWeight findings
  if total_weight = 0 then 100
  else if total_weight ≤ 5 then 90
  else if total_weight ≤ 15 then 75
  else if total_weight ≤ 30 then 50
  else 25

/-! ## Circuit breaker (`CircuitBreaker`, resilience.py 21-76)

Wall-clock times (`time.time()`) are modelled as integers.  The wrapped call
is modelled by its outcome: it returns, raises an exception matching
`expected_exception`, or raises an unmatched exception (which the wrapper
does not catch, so no state transition happens). -/

inductive CBMode where
  | closed
  | opened
  | halfOpen
deriving DecidableEq, Repr

structure CBState where
  failure_count : Nat
  last_failure_time : Option Int
  mode : CBMode
deriving DecidableEq, Repr

/-- A fresh breaker (resilience.py 30-32). -/
def CBState.init : CBState := ⟨0, none, CBMode.closed⟩

/-- Outcome of the wrapped function on one invocation. -/
inductive CallResult where
  | success
  | expectedFail
  | otherFail
deriving DecidableEq, Repr

/-- Outcome of one call through the breaker wrapper. -/
inductive CBOutcome where
  | returned
  | raisedCircuitOpen
  | raisedExpected
  | raisedOther
deriving DecidableEq, Repr

/-- One call through the wrapper, instrumented with whether the wrapped
function was invoked and with the breaker mode at the moment of invocation. -/
structure CBCall where
  state : CBState
  outcome : CBOutcome
  invoked : Bool
  modeAtInvocation : Option CBMode
deriving DecidableEq, Repr

/-- `CircuitBreaker._should_attempt_reset` (resilience.py 57-61):
`time.time() - self.last_failure_time >= self.recovery_timeout`,
vacuously true when no failure was ever recorded. -/
def should_attempt_reset (recovery_timeout : Int) (s : CBState) (now : Int) : Bool :=
  match s.last_failure_time with
  | none => true
  | some t => decide (recovery_timeout ≤ now - t)

/-- `CircuitBreaker._on_success` (resilience.py 63-67). -/
def on_success (s : CBState) : CBState :=
  { s with failure_count := 0, mode := CBMode.closed }

/-- `CircuitBreaker._on_failure` (resilience.py 69-76). -/
def on_failure (failure_threshold : Nat) (now : Int) (s : CBState) : CBState :=
  let fc := s.failure_count + 1
  { failure_count := fc
    last_failure_time := some now
    mode := if failure_threshold ≤ fc then CBMode.opened else s.mode }

/-- The `try` body of the wrapper (resilience.py 46-53): invoke the function
and apply `_on_success`/`_on_failure`; an exception not matching
`expected_exception` propagates with no state change. -/
def cbInvoke (failure_threshold : Nat) (now : Int) (s : CBState) (r : CallResult) : CBCall :=
  match r with
  | CallResult.success => ⟨on_success s, CBOutcome.returned, true, some s.mode⟩
  | CallResult.expectedFail =>
      ⟨on_failure failure_threshold now s, CBOutcome.raisedExpected, true, some s.mode⟩
  | CallResult.otherFail => ⟨s, CBOutcome.raisedOther, true, some s.mode⟩

/-- `CircuitBreaker.__call__`'s wrapper (resilience.py 35-55): the whole body
runs under the breaker's lock, so one call is a single atomic step. -/
def cbCall (failure_threshold : Nat) (recovery_timeout : Int)
    (s : CBState) (now : Int) (r : CallResult) : CBCall :=
  if s.mode = CBMode.opened then
    if should_attempt_reset recovery_timeout s now then
      cbInvoke failure_threshold now { s with mode := CBMode.halfOpen } r
    else
      ⟨s, CBOutcome.raisedCircuitOpen, false, none⟩
  else
    cbInvoke failure_threshold now s r

/-- `n` consecutive calls whose wrapped function raises the expected
exception, all at time `t`, starting from a fresh breaker. -/
def cbIterFail (failure_threshold : Nat) (recovery_timeout : Int) (t : Int) :
    Nat → CBState
  | 0 => CBState.init
  | n + 1 =>
      (cbCall failure_threshold recovery_timeout
        (cbIterFail failure_threshold recovery_timeout t n) t
        CallResult.expectedFail).state

/-! ## Bulkhead (`BulkheadIsolation`, resilience.py 151-173)

The wrapper does `self.semaphore.acquire(blocking=False)`; when that fails it
executes `raise ResourceExhaustionError("thread_pool", ...)` (lines 163-166).
Python resolves the name `ResourceExhaustionError` at that moment in the
module's scope; resilience.py's imports (lines 1-14) and top-level bindings
never bind that name (it lives in `utils.exceptions` and is imported by
`agents/base_agent.py` but not by resilience.py), and it is not a builtin, so
the raise statement itself fails with a `NameError`. -/

/-- Names bound at module level in resilience.py: its imports (lines 1-14)
and its top-level definitions. -/
def resilienceModuleScope : List String :=
  ["time", "threading", "logging", "Callable", "Any", "Dict", "Optional",
   "wraps", "Enum", "asyncio", "datetime", "timedelta", "logger",
   "CircuitBreakerState", "CircuitBreaker", "RetryPolicy", "Timeout",
   "BulkheadIsolation", "HealthChecker", "ErrorRecovery", "health_checker",
   "circuit_breaker", "retry", "timeout", "bulkhead"]

/-- Outcome of one call through the bulkhead wrapper. -/
inductive BulkheadOutcome where
  | invokedOperation
  | raisedResourceExhaustion (resource_type : String)
  | raisedNameError (name : String)
deriving DecidableEq, Repr

/-- `BulkheadIsolation.__call__`'s wrapper (resilience.py 158-173), for a call
arriving while `inFlight` executions hold a semaphore slot.
`ResourceExhaustionError` is not a Python builtin, so the raise resolves the
name against `resilienceModuleScope`. -/
def bulkhead_wrapper (max_concurrent inFlight : Nat) : BulkheadOutcome :=
  if inFlight < max_concurrent then
    BulkheadOutcome.invokedOperation
  else if resilienceModuleScope.contains "ResourceExhaustionError" then
    BulkheadOutcome.raisedResourceExhaustion "thread_pool"
  else
    BulkheadOutcome.raisedNameError "ResourceExhaustionError"

/-! ## Pipeline run persistence (`execute_pipeline`, orchestrator.py 67-121;
`DatabaseManager.update_pipeline_run`, database.py 216-257) -/

/-- A `pipeline_runs` row, restricted to the columns the claims inspect. -/
structure PipelineRunRec where
  status : String
  results : Option Dict
  error_message : Option String
  started_at : Option Int
  completed_at : Option Int

/-- A freshly inserted row (`create_pipeline_run`, database.py 187-214):
status defaults to `'pending'`, all other tracked columns NULL. -/
def PipelineRunRec.create : PipelineRunRec := ⟨"pending", none, none, none, none⟩

/-- `DatabaseManager.update_pipeline_run` (database.py 216-257): sets the
status; stamps `started_at` on the first transition to `'running'`; stamps
`completed_at` on `'completed'`/`'failed'`; attaches results and the error
message only when passed. -/
def update_pipeline_run (r : PipelineRunRec) (now : Int) (status : String)
    (results : Option Dict) (error_message : Option String) : PipelineRunRec :=
  { status := status
    started_at :=
      if status = "running" ∧ r.started_at = none then some now else r.started_at
    completed_at :=
      if status = "completed" ∨ status = "failed" then some now else r.completed_at
    results := match results with | some res => some res | none => r.results
    error_message := match error_message with | some e => some e | none => r.error_message }

/-- The sequence of `pipeline_runs` writes performed by
`VedOpsOrchestrator.execute_pipeline` (orchestrator.py 67-121) applied to the
run's row: create (line 73), mark `'running'` (line 83), then — only in the
`except` branch (line 119) — mark `'failed'` with the error message.  No
write at all happens on the successful return path (lines 90-112).
`raised = true` models an unrecoverable stage error propagating out of the
pipeline body; `t0 < t1 < t2` are the write timestamps. -/
def execute_pipeline_run_row (raised : Bool) (error_msg : String)
    (t1 t2 : Int) : PipelineRunRec :=
  let created := PipelineRunRec.create
  let running := update_pipeline_run created t1 "running" none none
  if raised then
    update_pipeline_run running t2 "failed" none (some error_msg)
  else
    running

/-! ## Cascade delete (`DatabaseManager.get_connection`, database.py 25-34;
`cleanup_old_data`, database.py 577-597)

The schema (database.py 36-185) declares every child table with
`FOREIGN KEY ... REFERENCES pipeline_runs(id) ON DELETE CASCADE`, but SQLite
only enforces foreign-key actions on connections that have executed
`PRAGMA foreign_keys = ON`; by SQLite's documented default the pragma is OFF
for every new connection.  `get_connection` (lines 25-34) runs
`sqlite3.connect(...)` and sets only `row_factory` — it never issues the
pragma — so deletes of `pipeline_runs` rows leave child rows in place. -/

/-- A store: the parent table (id, age in days) plus the four child tables
the claim names, each keyed by `pipeline_run_id`. -/
structure DBStore where
  foreign_keys_on : Bool
  pipeline_runs : List (Nat × Nat)
  agent_executions : List (Nat × Nat)
  security_findings : List (Nat × Nat)
  performance_metrics : List (Nat × Nat)
  build_artifacts : List (Nat × Nat)
deriving DecidableEq, Repr

/-- `sqlite3.connect` semantics for foreign keys: enforcement starts OFF on
every new connection unless `PRAGMA foreign_keys = ON` is executed.
`get_connection` (database.py 25-34) never executes it. -/
def get_connection_foreign_keys : Bool := false

/-- `DELETE FROM pipeline_runs WHERE created_at < datetime('now', '-N days')`
as executed by `cleanup_old_data` (database.py 577-597): child rows of a
deleted parent are removed only when the connection enforces foreign keys. -/
def deleteOldRuns (db : DBStore) (days_to_keep : Nat) : DBStore :=
  let doomed := fun (id : Nat) =>
    (db.pipeline_runs.filter (fun p => days_to_keep < p.2)).any (fun p => p.1 = id)
  let dropChildren := fun (t : List (Nat × Nat)) =>
    if db.foreign_keys_on then t.filter (fun c => ¬ doomed c.2) else t
  { db with
    pipeline_runs := db.pipeline_runs.filter (fun p => ¬ days_to_keep < p.2)
    agent_executions := dropChildren db.agent_executions
    security_findings := dropChildren db.security_findings
    performance_metrics := dropChildren db.performance_metrics
    build_artifacts := dropChildren db.build_artifacts }

/-- `DatabaseManager.cleanup_old_data` (database.py 577-597) on a store whose
connection comes from `get_connection`. -/
def cleanup_old_data (tables : DBStore) (days_to_keep : Nat) : DBStore :=
  deleteOldRuns { tables with foreign_keys_on := get_connection_foreign_keys } days_to_keep

/-- A store with one 40-day-old pipeline run (id 1) and one child row of each
kind referencing it. -/
def storeOneRun : DBStore :=
  ⟨false, [(1, 40)], [(10, 1)], [(20, 1)], [(30, 1)], [(40, 1)]⟩

/-! ## Execute with persistence and retry
(`VedOpsOrchestrator._execute_agent_with_persistence`, orchestrator.py 226-298;
`_handle_rollback`, orchestrator.py 300-311)

The agent's `execute` is modelled by its outcome per attempt (attempt index →
returned dict or raised exception text).  Persisted writes are traced as
events; the success-path extraction of embedded findings/metrics/artifacts
(orchestrator.py 251-271) is not traced because no claim here inspects it and
it happens only on the success path. -/

inductive PersistEvent where
  | createExecution
  | updateExec (status : String) (incRetry : Bool)
  | vayuRollbackCall
  | rollbackFailureLogged
deriving DecidableEq, Repr

structure AgentRunResult where
  events : List PersistEvent
  calls : Nat
  outcome : Except String Dict

/-- The error message built at orchestrator.py line 278:
`f"Agent {agent_name} failed (attempt {retry_count}): {str(e)}"`. -/
def attemptErrMsg (agent_name : String) (attempt : Nat) (e : String) : String :=
  "Agent " ++ agent_name ++ " failed (attempt " ++ toString attempt ++ "): " ++ e

/-- `VedOpsOrchestrator._handle_rollback` (orchestrator.py 300-311): only for
`failed_agent` in `['vayu', 'hanuman']` and only when a `'vayu'` agent is
registered is `self.agents['vayu'].rollback()` called; an exception raised by
the rollback is caught and logged, never re-raised. -/
def handle_rollback (failed_agent : String) (vayuRegistered : Bool)
    (rollback : Except String Unit) : List PersistEvent :=
  if (failed_agent = "vayu" ∨ failed_agent = "hanuman") ∧ vayuRegistered then
    match rollback with
    | Except.ok _ => [PersistEvent.vayuRollbackCall]
    | Except.error _ =>
        [PersistEvent.vayuRollbackCall, PersistEvent.rollbackFailureLogged]
  else []

/-- The `while retry_count <= max_retries` loop of
`_execute_agent_with_persistence` (orchestrator.py 243-298).  `retry_count`
is the loop variable; `fuel` is the number of remaining permitted attempts
(`max_retries + 1 - retry_count`), which makes the recursion structural. -/
def agentLoop (agent_name : String) (execute : Nat → Except String Dict)
    (max_retries : Nat) (auto_rollback : Bool) (vayuRegistered : Bool)
    (rollback : Except String Unit) : Nat → Nat → AgentRunResult
  | _, 0 => ⟨[], 0, Except.error "loop exhausted"⟩
  | retry_count, fuel + 1 =>
      match execute retry_count with
      | Except.ok result =>
          ⟨[PersistEvent.updateExec "running" false,
            PersistEvent.updateExec "completed" false], 1, Except.ok result⟩
      | Except.error e =>
          let rc := retry_count + 1
          let msg := attemptErrMsg agent_name rc e
          if rc ≤ max_retries then
            let rest := agentLoop agent_name execute max_retries auto_rollback
              vayuRegistered rollback rc fuel
            ⟨PersistEvent.updateExec "running" false ::
               PersistEvent.updateExec "retrying" true :: rest.events,
             rest.calls + 1, rest.outcome⟩
          else
            ⟨[PersistEvent.updateExec "running" false,
              PersistEvent.updateExec "failed" false] ++
               (if auto_rollback then
                  handle_rollback agent_name vayuRegistered rollback
                else []),
             1, Except.error msg⟩

/-- `VedOpsOrchestrator._execute_agent_with_persistence` (orchestrator.py
226-298): create the AgentExecution row (status `'pending'`), then run the
retry loop starting at `retry_count = 0`. -/
def execute_agent_with_persistence (agent_name : String)
    (execute : Nat → Except String Dict) (max_retries : Nat)
    (auto_rollback : Bool) (vayuRegistered : Bool)
    (rollback : Except String Unit) : AgentRunResult :=
  let r := agentLoop agent_name execute max_retries auto_rollback
    vayuRegistered rollback 0 (max_retries + 1)
  ⟨PersistEvent.createExecution :: r.events, r.calls, r.outcome⟩

/-- Number of recorded transitions to `status` among the traced writes. -/
def countStatus (events : List PersistEvent) (status : String) : Nat :=
  events.countP (fun e =>
    match e with
    | PersistEvent.updateExec s _ => s = status
    | _ => false)

/-- Recorded `'running'`/`'retrying'` transitions, as counted by P2. -/
def runningRetryingCount (events : List PersistEvent) : Nat :=
  countStatus events "running" + countStatus events "retrying"

/-- The event trace produced when every attempt fails: `n` retry rounds
followed by the terminal round. -/
def failEvents (agent_name : String) (auto_rollback : Bool)
    (vayuRegistered : Bool) (rollback : Except String Unit) : Nat → List PersistEvent
  | 0 =>
      [PersistEvent.updateExec "running" false,
       PersistEvent.updateExec "failed" false] ++
        (if auto_rollback then handle_rollback agent_name vayuRegistered rollback
         else [])
  | n + 1 =>
      PersistEvent.updateExec "running" false ::
        PersistEvent.updateExec "retrying" true ::
          failEvents agent_name auto_rollback vayuRegistered rollback n

/-- The fixed pipeline stage order of the sequential mode
(orchestrator.py 123-164): code-analysis, build, security-scan,
infra-provisioning, deploy, test, governance, observability-setup,
optimization. -/
def pipelineStageOrder : List String :=
  ["varuna", "agni", "yama", "terraform", "vayu", "hanuman", "krishna",
   "observability", "optimization"]

/-! ## Sequential and parallel pipelines
(`_execute_pipeline_sequential`, orchestrator.py 123-164;
`_execute_pipeline_parallel`, orchestrator.py 166-224)

Agent behaviour is the opaque function `execute(input) -> output`, modelled
as `Behavior`.  These claims concern runs where no stage raises, so the
behaviour is total.  Each stage's input and output dict follows the source's
local variables line by line; the trace records `(agent_name, input, output)`
in invocation order (for the parallel fan-outs, in submission order). -/

abbrev Behavior := String → Dict → Dict

namespace Seq

/-- orchestrator.py 127. -/
def varuna_result (b : Behavior) (pd : Dict) : Dict := b "varuna" pd

/-- orchestrator.py 130: `{**project_data, **varuna_result}`. -/
def agni_input (b : Behavior) (pd : Dict) : Dict := pd.pyMerge (varuna_result b pd)

def agni_result (b : Behavior) (pd : Dict) : Dict := b "agni" (agni_input b pd)

/-- orchestrator.py 134: `{**agni_input, **agni_result}`. -/
def yama_input (b : Behavior) (pd : Dict) : Dict :=
  (agni_input b pd).pyMerge (agni_result b pd)

def yama_result (b : Behavior) (pd : Dict) : Dict := b "yama" (yama_input b pd)

/-- orchestrator.py 139: `{**yama_input, **yama_result, 'cloud_credentials': ...}`
(the configuration value is opaque to these claims). -/
def tf_input (b : Behavior) (pd : Dict) : Dict :=
  ((yama_input b pd).pyMerge (yama_result b pd)).insert "cloud_credentials" Val.blob

def tf_result (b : Behavior) (pd : Dict) : Dict := b "terraform" (tf_input b pd)

/-- orchestrator.py 143: `{**yama_input, **yama_result, **tf_result}`. -/
def vayu_input (b : Behavior) (pd : Dict) : Dict :=
  ((yama_input b pd).pyMerge (yama_result b pd)).pyMerge (tf_result b pd)

def vayu_result (b : Behavior) (pd : Dict) : Dict := b "vayu" (vayu_input b pd)

/-- orchestrator.py 147: `{**vayu_input, **vayu_result}`. -/
def hanuman_input (b : Behavior) (pd : Dict) : Dict :=
  (vayu_input b pd).pyMerge (vayu_result b pd)

def hanuman_result (b : Behavior) (pd : Dict) : Dict :=
  b "hanuman" (hanuman_input b pd)

/-- orchestrator.py 151: `{**hanuman_input, **hanuman_result, 'all_results': pipeline_results}`
(the nested results blob is opaque to these claims). -/
def krishna_input (b : Behavior) (pd : Dict) : Dict :=
  ((hanuman_input b pd).pyMerge (hanuman_result b pd)).insert "all_results" Val.blob

def krishna_result (b : Behavior) (pd : Dict) : Dict :=
  b "krishna" (krishna_input b pd)

/-- orchestrator.py 155: `vayu_result.get('deployment_status') == 'success'`. -/
def deploySucceeded (b : Behavior) (pd : Dict) : Prop :=
  vayu_result b pd "deployment_status" = some (Val.str "success")

instance (b : Behavior) (pd : Dict) : Decidable (deploySucceeded b pd) := by
  unfold deploySucceeded; infer_instance

/-- orchestrator.py 156: `{**krishna_input, **krishna_result}`. -/
def obs_input (b : Behavior) (pd : Dict) : Dict :=
  (krishna_input b pd).pyMerge (krishna_result b pd)

def obs_result (b : Behavior) (pd : Dict) : Dict :=
  b "observability" (obs_input b pd)

/-- orchestrator.py 160: `{**obs_input, **obs_result}`. -/
def opt_input (b : Behavior) (pd : Dict) : Dict :=
  (obs_input b pd).pyMerge (obs_result b pd)

def opt_result (b : Behavior) (pd : Dict) : Dict :=
  b "optimization" (opt_input b pd)

end Seq

/-- The invocation trace of `_execute_pipeline_sequential`
(orchestrator.py 123-164): `(agent_name, input, output)` per executed stage. -/
def seqTrace (b : Behavior) (pd : Dict) : List (String × Dict × Dict) :=
  [("varuna", pd, Seq.varuna_result b pd),
   ("agni", Seq.agni_input b pd, Seq.agni_result b pd),
   ("yama", Seq.yama_input b pd, Seq.yama_result b pd),
   ("terraform", Seq.tf_input b pd, Seq.tf_result b pd),
   ("vayu", Seq.vayu_input b pd, Seq.vayu_result b pd),
   ("hanuman", Seq.hanuman_input b pd, Seq.hanuman_result b pd),
   ("krishna", Seq.krishna_input b pd, Seq.krishna_result b pd)] ++
    (if Seq.deploySucceeded b pd then
      [("observability", Seq.obs_input b pd, Seq.obs_result b pd),
       ("optimization", Seq.opt_input b pd, Seq.opt_result b pd)]
    else [])

/-- The methods the class `ParallelExecutor` (performance.py 335-387)
defines: `__init__`, `execute_parallel` and `execute_batch` only — in
particular neither `__call__` nor `__enter__`/`__exit__`. -/
def parallelExecutorClassMethods : List String :=
  ["__init__", "execute_parallel", "execute_batch"]

/-- `with parallel_executor(max_workers=...) as executor:`
(orchestrator.py 179, 194 and 210): `parallel_executor` (performance.py 506)
is an *instance* of `ParallelExecutor`, and Python first evaluates the call
`parallel_executor(...)`; an instance is callable only when its class defines
`__call__`, so the call raises `TypeError` before anything is submitted to a
pool (Python's message quotes the class name: `TypeError: 'ParallelExecutor'
object is not callable`). -/
def parallelPoolEnter : Except String Unit :=
  if parallelExecutorClassMethods.contains "__call__" then Except.ok ()
  else Except.error "TypeError: ParallelExecutor object is not callable"

/-- A pipeline mode's observable run: the stages that actually executed, and
the exception that aborted the mode (`none` when it returned). -/
structure PipelineTrace where
  stages : List (String × Dict × Dict)
  error : Option String

/-- The run of `_execute_pipeline_parallel` (orchestrator.py 166-224):
code-analysis and build execute exactly as in the sequential mode
(lines 170-175 are identical to lines 127-132), and then line 179 evaluates
`parallel_executor(max_workers=...)`, which raises (`parallelPoolEnter`);
there is no `try` in the function, so the exception aborts the mode and the
security-scan, deploy and fan-out stages of lines 180-223 never start. -/
def parRun (b : Behavior) (pd : Dict) : PipelineTrace :=
  { stages := [("varuna", pd, Seq.varuna_result b pd),
               ("agni", Seq.agni_input b pd, Seq.agni_result b pd)]
    error :=
      match parallelPoolEnter with
      | Except.error e => some e
      | Except.ok _ => none }

/-- The sequence of stage names a trace invoked. -/
def stagesOf (t : List (String × Dict × Dict)) : List String :=
  t.map (fun x => x.1)

/-- An agent behaviour returning the empty dict from every stage
(so `deployment_status` is never `'success'`). -/
def emptyBehavior : Behavior := fun _ _ => Dict.empty

/-- A behaviour whose code-analysis stage outputs `{x: ...}` and whose other
stages output `{}` (deployment therefore does not succeed). -/
def xBehavior : Behavior :=
  fun name _ => if name = "varuna" then Dict.single "x" Val.blob else Dict.empty

/-! ## Progress reporting (`VedOpsOrchestrator.get_progress`, orchestrator.py 372-420)

The per-agent status map read from `agent_executions` is the input
(one row per agent within a run; an absent agent reads as `'pending'`,
orchestrator.py 397).  The registration order is the insertion order of
`agent_classes` in `_initialize_agents` (orchestrator.py 44-54). -/

/-- The registered agents, in registration order (orchestrator.py 44-54). -/
def agentsRegistrationOrder : List String :=
  ["varuna", "agni", "yama", "vayu", "hanuman", "krishna", "observability",
   "optimization", "terraform"]

/-- Python `str.title()` on a single lowercase word capitalises its first
letter (all agent names are single lowercase words). -/
def titleWord (s : String) : String := s.capitalize

/-- The recorded status of an agent for the current run, `'pending'` when no
row exists (orchestrator.py 397). -/
def agentStatus (statuses : List (String × String)) (agent : String) : String :=
  match statuses.find? (fun p => p.1 = agent) with
  | some p => p.2
  | none => "pending"

/-- The `for agent_name in self.agents.keys()` loop of `get_progress`
(orchestrator.py 396-405): count completed agents, breaking at the first
agent found `running`/`retrying` or `failed`. -/
def progressLoop (statuses : List (String × String)) :
    List String → Nat → Nat × String
  | [], completed => (completed, "Starting")
  | a :: rest, completed =>
      let status := agentStatus statuses a
      if status = "completed" then progressLoop statuses rest (completed + 1)
      else if status = "running" ∨ status = "retrying" then
        (completed, "Running " ++ titleWord a ++ " Agent")
      else if status = "failed" then
        (completed, "Failed at " ++ titleWord a ++ " Agent")
      else progressLoop statuses rest completed

/-- `get_progress`'s `completed_agents` and `current_stage`
(orchestrator.py 382-405), from the per-agent status map. -/
def get_progress_counts (statuses : List (String × String)) : Nat × String :=
  progressLoop statuses agentsRegistrationOrder 0

/-- `percentage = (completed_agents / total_agents) * 100`
(orchestrator.py 407), over the 9 registered agents. -/
def get_progress_percentage (statuses : List (String × String)) : ℚ :=
  ((get_progress_counts statuses).1 : ℚ) / (agentsRegistrationOrder.length : ℚ) * 100

/-- The percentage the claim describes: all agents whose recorded status is
`'completed'`, regardless of position, over the total. -/
def claimedCompletedCount (statuses : List (String × String)) : Nat :=
  (agentsRegistrationOrder.filter (fun a => agentStatus statuses a = "completed")).length

/-- The claim's `percentage`. -/
def claimedPercentage (statuses : List (String × String)) : ℚ :=
  (claimedCompletedCount statuses : ℚ) / (agentsRegistrationOrder.length : ℚ) * 100

/-- A run state in which `varuna`, `agni`, `yama` and `terraform` have
completed and `vayu` is running. -/
def progressCounterexampleState : List (String × String) :=
  [("varuna", "completed"), ("agni", "completed"), ("yama", "completed"),
   ("terraform", "completed"), ("vayu", "running")]

/-- Does `get_progress`'s loop break at this agent? -/
def isBlocking (statuses : List (String × String)) (a : String) : Bool :=
  agentStatus statuses a == "running" || agentStatus statuses a == "retrying" ||
    agentStatus statuses a == "failed"

/-! ## Theorems -/

@[simp] theorem Dict.hasKey_pyMerge (a b : Dict) (k : Key) :
    (a.pyMerge b).hasKey k ↔ a.hasKey k ∨ b.hasKey k := by
  unfold Dict.hasKey Dict.pyMerge
  cases hb : b k <;> cases ha : a k <;> simp [Option.orElse, hb, ha]

@[simp] theorem Dict.hasKey_insert (a : Dict) (k' : Key) (v : Val) (k : Key) :
    (a.insert k' v).hasKey k ↔ k = k' ∨ a.hasKey k := by
  unfold Dict.hasKey Dict.insert
  by_cases h : k = k' <;> simp [h]

theorem score_cases (findings : List (String × Nat)) :
    calculate_security_score findings = 100 ∨ calculate_security_score findings = 90 ∨
    calculate_security_score findings = 75 ∨ calculate_security_score findings = 50 ∨
    calculate_security_score findings = 25 := by
  simp only [calculate_security_score]
  split_ifs <;> simp

theorem score_antitone_in_weight (f g : List (String × Nat))
    (h : totalWeight f ≤ totalWeight g) :
    calculate_security_score g ≤ calculate_security_score f := by
  simp only [calculate_security_score]
  split_ifs <;> omega

/-- C10: the security score is one of {100, 90, 75, 50, 25}; it is 100 exactly
when the weighted total (critical=10, high=5, medium=2, low=1) is 0, 90 when
the total is in (0,5], 75 in (5,15], 50 in (15,30], 25 above 30; and the score
never increases when any finding count increases (it is antitone in the
pointwise order on the four weighted counts). -/
theorem C10_security_score (f g : List (String × Nat))
    (hc : sevGet f "critical" ≤ sevGet g "critical")
    (hh : sevGet f "high" ≤ sevGet g "high")
    (hm : sevGet f "medium" ≤ sevGet g "medium")
    (hl : sevGet f "low" ≤ sevGet g "low") :
    (calculate_security_score f = 100 ∨ calculate_security_score f = 90 ∨
      calculate_security_score f = 75 ∨ calculate_security_score f = 50 ∨
      calculate_security_score f = 25) ∧
    (calculate_security_score f = 100 ↔ totalWeight f = 0) ∧
    (0 < totalWeight f ∧ totalWeight f ≤ 5 → calculate_security_score f = 90) ∧
    (5 < totalWeight f ∧ totalWeight f ≤ 15 → calculate_security_score f = 75) ∧
    (15 < totalWeight f ∧ totalWeight f ≤ 30 → calculate_security_score f = 50) ∧
    (30 < totalWeight f → calculate_security_score f = 25) ∧
    calculate_security_score g ≤ calculate_security_score f := by
  have hw : totalWeight f ≤ totalWeight g := by
    unfold totalWeight; omega
  refine ⟨score_cases f, ?_, ?_, ?_, ?_, ?_, score_antitone_in_weight f g hw⟩ <;>
    simp only [calculate_security_score] <;> split_ifs <;> omega

/-- Witness for C10 at concrete inputs:
`f = {critical: 0, high: 1}` (weight 5, score 90) and
`g = {critical: 1, high: 1}` (weight 15, score 75 ≤ 90). -/
theorem C10_security_score_witness :
    (calculate_security_score [("critical", 0), ("high", 1)] = 100 ∨
      calculate_security_score [("critical", 0), ("high", 1)] = 90 ∨
      calculate_security_score [("critical", 0), ("high", 1)] = 75 ∨
      calculate_security_score [("critical", 0), ("high", 1)] = 50 ∨
      calculate_security_score [("critical", 0), ("high", 1)] = 25) ∧
    (calculate_security_score [("critical", 0), ("high", 1)] = 100 ↔
      totalWeight [("critical", 0), ("high", 1)] = 0) ∧
    (0 < totalWeight [("critical", 0), ("high", 1)] ∧
        totalWeight [("critical", 0), ("high", 1)] ≤ 5 →
      calculate_security_score [("critical", 0), ("high", 1)] = 90) ∧
    (5 < totalWeight [("critical", 0), ("high", 1)] ∧
        totalWeight [("critical", 0), ("high", 1)] ≤ 15 →
      calculate_security_score [("critical", 0), ("high", 1)] = 75) ∧
    (15 < totalWeight [("critical", 0), ("high", 1)] ∧
        totalWeight [("critical", 0), ("high", 1)] ≤ 30 →
      calculate_security_score [("critical", 0), ("high", 1)] = 50) ∧
    (30 < totalWeight [("critical", 0), ("high", 1)] →
      calculate_security_score [("critical", 0), ("high", 1)] = 25) ∧
    calculate_security_score [("critical", 1), ("high", 1)] ≤
      calculate_security_score [("critical", 0), ("high", 1)] :=
  C10_security_score [("critical", 0), ("high", 1)] [("critical", 1), ("high", 1)]
    (by decide) (by decide) (by decide) (by decide)

theorem cbIterFail_spec (failure_threshold : Nat) (recovery_timeout : Int) (t : Int)
    (hpos : 1 ≤ failure_threshold) (n : Nat) (hn : n ≤ failure_threshold) :
    (cbIterFail failure_threshold recovery_timeout t n).failure_count = n ∧
    (cbIterFail failure_threshold recovery_timeout t n).mode =
      (if failure_threshold ≤ n then CBMode.opened else CBMode.closed) ∧
    (0 < n → (cbIterFail failure_threshold recovery_timeout t n).last_failure_time = some t) := by
  induction n with
  | zero =>
      have h0 : ¬ failure_threshold ≤ 0 := by omega
      simp [cbIterFail, CBState.init, h0]
  | succ m ih =>
      obtain ⟨ihc, ihm, _⟩ := ih (by omega)
      have hm : ¬ failure_threshold ≤ m := by omega
      rw [if_neg hm] at ihm
      refine ⟨?_, ?_, ?_⟩ <;>
        simp [cbIterFail, cbCall, ihm, cbInvoke, on_failure, ihc]

/-- C5: (a) after `failure_threshold` consecutive expected failures the
breaker is OPEN; (b) a call in OPEN state before `recovery_timeout` has
elapsed since the last failure fails with the circuit-open error (the
`"Circuit breaker OPEN"` raise at resilience.py line 44) without invoking the
wrapped operation and without changing state; (c) a call in OPEN state once
`recovery_timeout` has elapsed invokes the wrapped operation exactly once,
in HALF_OPEN mode, and if that invocation succeeds the failure count is
reset to 0 and the breaker is CLOSED. -/
theorem C5_circuit_breaker (failure_threshold : Nat) (recovery_timeout : Int)
    (hth : 1 ≤ failure_threshold) (t : Int)
    (s : CBState) (now now' : Int) (tl : Int)
    (hmode : s.mode = CBMode.opened) (hlast : s.last_failure_time = some tl)
    (hearly : now - tl < recovery_timeout) (hlate : recovery_timeout ≤ now' - tl) :
    (cbIterFail failure_threshold recovery_timeout t failure_threshold).mode =
      CBMode.opened ∧
    (cbCall failure_threshold recovery_timeout s now CallResult.expectedFail =
      ⟨s, CBOutcome.raisedCircuitOpen, false, none⟩) ∧
    ((cbCall failure_threshold recovery_timeout s now' CallResult.success).invoked = true ∧
      (cbCall failure_threshold recovery_timeout s now' CallResult.success).modeAtInvocation =
        some CBMode.halfOpen ∧
      (cbCall failure_threshold recovery_timeout s now' CallResult.success).state.failure_count = 0 ∧
      (cbCall failure_threshold recovery_timeout s now' CallResult.success).state.mode =
        CBMode.closed) := by
  refine ⟨?_, ?_, ?_⟩
  · have h :=
      (cbIterFail_spec failure_threshold recovery_timeout t hth failure_threshold le_rfl).2.1
    rw [h, if_pos le_rfl]
  · have hres : should_attempt_reset recovery_timeout s now = false := by
      simp [should_attempt_reset, hlast]
      omega
    simp [cbCall, hmode, hres]
  · have hres : should_attempt_reset recovery_timeout s now' = true := by
      simp [should_attempt_reset, hlast]
      omega
    simp [cbCall, hmode, hres, cbInvoke, on_success]

/-- Witness for C5 at `failure_threshold = 2`, `recovery_timeout = 10`,
with the breaker open since time 100, probed at times 105 (too early)
and 111 (after the timeout). -/
theorem C5_circuit_breaker_witness :
    (cbIterFail 2 10 100 2).mode = CBMode.opened ∧
    (cbCall 2 10 ⟨2, some 100, CBMode.opened⟩ 105 CallResult.expectedFail =
      ⟨⟨2, some 100, CBMode.opened⟩, CBOutcome.raisedCircuitOpen, false, none⟩) ∧
    ((cbCall 2 10 ⟨2, some 100, CBMode.opened⟩ 111 CallResult.success).invoked = true ∧
      (cbCall 2 10 ⟨2, some 100, CBMode.opened⟩ 111 CallResult.success).modeAtInvocation =
        some CBMode.halfOpen ∧
      (cbCall 2 10 ⟨2, some 100, CBMode.opened⟩ 111 CallResult.success).state.failure_count = 0 ∧
      (cbCall 2 10 ⟨2, some 100, CBMode.opened⟩ 111 CallResult.success).state.mode =
        CBMode.closed) :=
  C5_circuit_breaker 2 10 (by decide) 100 ⟨2, some 100, CBMode.opened⟩ 105 111 100
    (by decide) (by decide) (by decide) (by decide)

/-- C4 evaluated at the failing input: with `max_concurrent = 10` (the source
default) and 10 calls already executing, the excess call does fail immediately
without invoking the operation — but with a `NameError`, because resilience.py
never imports `ResourceExhaustionError`; it does not fail with
`ResourceExhaustionError("thread_pool", ...)` as the claim states. -/
theorem C4_bulkhead_name_error :
    bulkhead_wrapper 10 10 = BulkheadOutcome.raisedNameError "ResourceExhaustionError" ∧
    bulkhead_wrapper 10 10 ≠ BulkheadOutcome.raisedResourceExhaustion "thread_pool" ∧
    bulkhead_wrapper 10 9 = BulkheadOutcome.invokedOperation := by
  decide

/-- C1 evaluated at the failing input: after an invocation of
`execute_pipeline` that returns without raising, the persisted row is still
`'running'` with no results and no `completed_at` — it is never marked
`'completed'` (the failure path, by contrast, does persist `'failed'` with
the error message). -/
theorem C1_no_completed_write :
    ((execute_pipeline_run_row false "" 1 2).status = "running" ∧
      (execute_pipeline_run_row false "" 1 2).status ≠ "completed" ∧
      (execute_pipeline_run_row false "" 1 2).results = none ∧
      (execute_pipeline_run_row false "" 1 2).completed_at = none) ∧
    ((execute_pipeline_run_row true "boom" 1 2).status = "failed" ∧
      (execute_pipeline_run_row true "boom" 1 2).error_message = some "boom") := by
  refine ⟨⟨?_, ?_, ?_, ?_⟩, ?_, ?_⟩ <;>
    simp [execute_pipeline_run_row, update_pipeline_run, PipelineRunRec.create]

/-- C2 evaluated at the failing input: `cleanup_old_data` with a 30-day
retention deletes run 1 but leaves its AgentExecution, SecurityFinding,
PerformanceMetric and BuildArtifact children orphaned, because the
`ON DELETE CASCADE` clauses are never enforced (no `PRAGMA foreign_keys = ON`
on the connection). -/
theorem C2_no_cascade :
    (cleanup_old_data storeOneRun 30).pipeline_runs = [] ∧
    (cleanup_old_data storeOneRun 30).agent_executions = [(10, 1)] ∧
    (cleanup_old_data storeOneRun 30).security_findings = [(20, 1)] ∧
    (cleanup_old_data storeOneRun 30).performance_metrics = [(30, 1)] ∧
    (cleanup_old_data storeOneRun 30).build_artifacts = [(40, 1)] := by
  decide

theorem agentLoop_allFail (agent_name : String) (errs : Nat → String)
    (max_retries : Nat) (auto_rollback : Bool) (vayuRegistered : Bool)
    (rollback : Except String Unit) :
    ∀ fuel retry_count, retry_count + fuel = max_retries →
      agentLoop agent_name (fun n => Except.error (errs n)) max_retries
          auto_rollback vayuRegistered rollback retry_count (fuel + 1) =
        ⟨failEvents agent_name auto_rollback vayuRegistered rollback fuel,
         fuel + 1,
         Except.error (attemptErrMsg agent_name (max_retries + 1) (errs max_retries))⟩ := by
  intro fuel
  induction fuel with
  | zero =>
      intro rc h
      have hrc : rc = max_retries := by omega
      subst hrc
      simp [agentLoop, failEvents]
  | succ m ih =>
      intro rc h
      have hle : rc + 1 ≤ max_retries := by omega
      have hrest := ih (rc + 1) (by omega)
      simp only [agentLoop] at hrest
      simp only [agentLoop, hrest, if_pos hle, failEvents]

theorem countStatus_append (a b : List PersistEvent) (s : String) :
    countStatus (a ++ b) s = countStatus a s + countStatus b s := by
  simp [countStatus, List.countP_append]

theorem countStatus_rollback_events (agent_name : String) (vayuRegistered : Bool)
    (rollback : Except String Unit) (auto_rollback : Bool) (s : String) :
    countStatus
        (if auto_rollback = true then
          handle_rollback agent_name vayuRegistered rollback
        else []) s = 0 := by
  split_ifs
  · simp only [handle_rollback]
    split_ifs <;> cases rollback <;> simp [countStatus]
  · simp [countStatus]

theorem countStatus_failEvents (agent_name : String) (auto_rollback : Bool)
    (vayuRegistered : Bool) (rollback : Except String Unit) (n : Nat) :
    countStatus (failEvents agent_name auto_rollback vayuRegistered rollback n)
        "running" = n + 1 ∧
    countStatus (failEvents agent_name auto_rollback vayuRegistered rollback n)
        "retrying" = n ∧
    countStatus (failEvents agent_name auto_rollback vayuRegistered rollback n)
        "failed" = 1 := by
  induction n with
  | zero =>
      refine ⟨?_, ?_, ?_⟩ <;>
        · simp only [failEvents, countStatus_append,
            countStatus_rollback_events agent_name vayuRegistered rollback auto_rollback]
          decide
  | succ m ih =>
      obtain ⟨ihr, ihy, ihf⟩ := ih
      refine ⟨?_, ?_, ?_⟩ <;>
        simp_all [failEvents, countStatus, List.countP_cons]

theorem rollback_mem_failEvents (agent_name : String) (auto_rollback : Bool)
    (vayuRegistered : Bool) (rollback : Except String Unit) (n : Nat) :
    (PersistEvent.vayuRollbackCall ∈
        failEvents agent_name auto_rollback vayuRegistered rollback n ↔
      auto_rollback = true ∧ (agent_name = "vayu" ∨ agent_name = "hanuman") ∧
        vayuRegistered = true) ∧
    (PersistEvent.rollbackFailureLogged ∈
        failEvents agent_name auto_rollback vayuRegistered rollback n ↔
      auto_rollback = true ∧ (agent_name = "vayu" ∨ agent_name = "hanuman") ∧
        vayuRegistered = true ∧ rollback.isOk = false) := by
  induction n with
  | zero =>
      constructor <;>
        · simp only [failEvents, handle_rollback, List.mem_append, List.mem_cons]
          split_ifs <;> cases hrb : rollback <;>
            simp_all [Except.isOk, Except.toBool]
  | succ m ih =>
      obtain ⟨ih1, ih2⟩ := ih
      constructor <;> simp_all [failEvents]

/-- The claim of C3 fails: with `max_retries = 1` and an `execute` that always
raises, `execute` is invoked 2 times (as claimed) but the recorded
`'running'`/`'retrying'` transitions before the terminal `'failed'` status
number 3 (running, retrying, running), not `k + 1 = 2`. -/
theorem C3_counterexample :
    (execute_agent_with_persistence "agni" (fun _ => Except.error "boom") 1
        true true (Except.ok ())).calls = 1 + 1 ∧
    runningRetryingCount
        (execute_agent_with_persistence "agni" (fun _ => Except.error "boom") 1
          true true (Except.ok ())).events = 3 ∧
    ¬ (runningRetryingCount
        (execute_agent_with_persistence "agni" (fun _ => Except.error "boom") 1
          true true (Except.ok ())).events = 1 + 1) := by
  decide

/-- C3 amended: for an agent run through the execute-with-persistence-and-retry
procedure with `max_retries = k` and an `execute` that always raises, the
agent's `execute` is invoked exactly `k + 1` times, and the recorded
transitions before the terminal `'failed'` status are `k + 1` `'running'`
transitions and `k` `'retrying'` transitions — `2k + 1` `'running'`/`'retrying'`
transitions in total, not `k + 1`; exactly one `'failed'` status is recorded. -/
theorem C3_amended (agent_name : String) (errs : Nat → String) (k : Nat)
    (auto_rollback : Bool) (vayuRegistered : Bool) (rollback : Except String Unit) :
    (execute_agent_with_persistence agent_name (fun n => Except.error (errs n)) k
        auto_rollback vayuRegistered rollback).calls = k + 1 ∧
    countStatus (execute_agent_with_persistence agent_name
        (fun n => Except.error (errs n)) k auto_rollback vayuRegistered
        rollback).events "running" = k + 1 ∧
    countStatus (execute_agent_with_persistence agent_name
        (fun n => Except.error (errs n)) k auto_rollback vayuRegistered
        rollback).events "retrying" = k ∧
    runningRetryingCount (execute_agent_with_persistence agent_name
        (fun n => Except.error (errs n)) k auto_rollback vayuRegistered
        rollback).events = 2 * k + 1 ∧
    countStatus (execute_agent_with_persistence agent_name
        (fun n => Except.error (errs n)) k auto_rollback vayuRegistered
        rollback).events "failed" = 1 := by
  have hloop := agentLoop_allFail agent_name errs k auto_rollback vayuRegistered
    rollback k 0 (by omega)
  obtain ⟨hr, hy, hf⟩ :=
    countStatus_failEvents agent_name auto_rollback vayuRegistered rollback k
  have hev : (execute_agent_with_persistence agent_name
      (fun n => Except.error (errs n)) k auto_rollback vayuRegistered
      rollback).events =
      PersistEvent.createExecution ::
        failEvents agent_name auto_rollback vayuRegistered rollback k := by
    simp only [execute_agent_with_persistence, hloop]
  have hcalls : (execute_agent_with_persistence agent_name
      (fun n => Except.error (errs n)) k auto_rollback vayuRegistered
      rollback).calls = k + 1 := by
    simp only [execute_agent_with_persistence, hloop]
  have hcons : ∀ s, countStatus
      (PersistEvent.createExecution ::
        failEvents agent_name auto_rollback vayuRegistered rollback k) s =
      countStatus (failEvents agent_name auto_rollback vayuRegistered rollback k) s := by
    intro s
    simp [countStatus, List.countP_cons]
  refine ⟨hcalls, ?_, ?_, ?_, ?_⟩ <;>
    simp only [hev, runningRetryingCount, hcons, hr, hy, hf] <;> omega

/-- The claim of C9 fails: `krishna` (governance) is a stage later than
`vayu`/deploy in the fixed pipeline order, yet when it exhausts its retry
budget with auto-rollback configured, the rollback collaborator is never
invoked — `_handle_rollback` (orchestrator.py 305) only acts for
`failed_agent` in `['vayu', 'hanuman']`. -/
theorem C9_counterexample :
    pipelineStageOrder.indexOf "vayu" ≤ pipelineStageOrder.indexOf "krishna" ∧
    countStatus (execute_agent_with_persistence "krishna"
        (fun _ => Except.error "boom") 0 true true (Except.ok ())).events
        "failed" = 1 ∧
    PersistEvent.vayuRollbackCall ∉
      (execute_agent_with_persistence "krishna" (fun _ => Except.error "boom") 0
        true true (Except.ok ())).events := by
  decide

/-- C9 amended: when a stage exhausts its retry budget with auto-rollback
configured, the stage is marked `'failed'` with the error message; rollback is
invoked only for failures of the `vayu` (deploy) or `hanuman` (test) stages
(and only when a `vayu` agent is registered) — not for every stage at or
after deploy; an exception raised by the rollback itself is only logged; and
the error raised to the caller is always the original stage failure,
whatever the rollback outcome `rollback` is. -/
theorem C9_amended (agent_name : String) (errs : Nat → String) (k : Nat)
    (vayuRegistered : Bool) (rollback : Except String Unit) :
    countStatus (execute_agent_with_persistence agent_name
        (fun n => Except.error (errs n)) k true vayuRegistered rollback).events
        "failed" = 1 ∧
    (PersistEvent.vayuRollbackCall ∈
        (execute_agent_with_persistence agent_name
          (fun n => Except.error (errs n)) k true vayuRegistered rollback).events ↔
      (agent_name = "vayu" ∨ agent_name = "hanuman") ∧ vayuRegistered = true) ∧
    (PersistEvent.rollbackFailureLogged ∈
        (execute_agent_with_persistence agent_name
          (fun n => Except.error (errs n)) k true vayuRegistered rollback).events ↔
      (agent_name = "vayu" ∨ agent_name = "hanuman") ∧ vayuRegistered = true ∧
        rollback.isOk = false) ∧
    (execute_agent_with_persistence agent_name
        (fun n => Except.error (errs n)) k true vayuRegistered rollback).outcome =
      Except.error (attemptErrMsg agent_name (k + 1) (errs k)) := by
  have hloop := agentLoop_allFail agent_name errs k true vayuRegistered rollback
    k 0 (by omega)
  have hev : (execute_agent_with_persistence agent_name
      (fun n => Except.error (errs n)) k true vayuRegistered rollback).events =
      PersistEvent.createExecution ::
        failEvents agent_name true vayuRegistered rollback k := by
    simp only [execute_agent_with_persistence, hloop]
  have hout : (execute_agent_with_persistence agent_name
      (fun n => Except.error (errs n)) k true vayuRegistered rollback).outcome =
      Except.error (attemptErrMsg agent_name (k + 1) (errs k)) := by
    simp only [execute_agent_with_persistence, hloop]
  obtain ⟨hm1, hm2⟩ := rollback_mem_failEvents agent_name true vayuRegistered rollback k
  obtain ⟨-, -, hf⟩ := countStatus_failEvents agent_name true vayuRegistered rollback k
  refine ⟨?_, ?_, ?_, hout⟩
  · rw [hev]
    simpa [countStatus, List.countP_cons] using hf
  · rw [hev]
    simp only [List.mem_cons] at hm1 ⊢
    simp [hm1]
  · rw [hev]
    simp only [List.mem_cons] at hm2 ⊢
    simp [hm2]

/-- The claim of C6 fails at a concrete input: with every agent returning
`{}` and an empty project input, the sequential mode runs code-analysis,
build, security-scan, infra-provisioning, deploy, test and governance, while
the parallel mode runs only code-analysis and build and then aborts with a
`TypeError` — the `with parallel_executor(max_workers=...)` statement calls
an instance whose class defines no `__call__` — so the two modes do not run
the same stages. -/
theorem C6_counterexample :
    stagesOf (seqTrace emptyBehavior Dict.empty) =
      ["varuna", "agni", "yama", "terraform", "vayu", "hanuman", "krishna"] ∧
    stagesOf (parRun emptyBehavior Dict.empty).stages = ["varuna", "agni"] ∧
    (parRun emptyBehavior Dict.empty).error =
      some "TypeError: ParallelExecutor object is not callable" ∧
    stagesOf (parRun emptyBehavior Dict.empty).stages ≠
      stagesOf (seqTrace emptyBehavior Dict.empty) := by
  refine ⟨?_, ?_, ?_, ?_⟩ <;> decide

/-- C6 amended: for every project input and agent behaviour, the parallel
execution mode runs only the first two stages of the sequential mode's fixed
order — code-analysis and build, with the same input-merging rule — and then
aborts with a `TypeError` when it enters the security-scan worker-pool block:
`parallel_executor` is an instance of `ParallelExecutor`, whose class defines
neither `__call__` nor `__enter__`, so `with parallel_executor(...)` raises
before anything is submitted; security-scan, deploy and the fan-out stages
never run in parallel mode. -/
theorem C6_amended (b : Behavior) (pd : Dict) :
    (parRun b pd).stages =
      [("varuna", pd, Seq.varuna_result b pd),
       ("agni", Seq.agni_input b pd, Seq.agni_result b pd)] ∧
    stagesOf (parRun b pd).stages = (stagesOf (seqTrace b pd)).take 2 ∧
    (parRun b pd).error =
      some "TypeError: ParallelExecutor object is not callable" := by
  refine ⟨rfl, ?_, rfl⟩
  by_cases hd : Seq.deploySucceeded b pd <;>
    simp [seqTrace, stagesOf, parRun, hd]

/-- C8: in a sequential pipeline run, the input of stage `j` contains every
key present in the output of any earlier stage `i < j` — no key of an earlier
stage's output is missing from a later stage's input. -/
theorem C8_merge_correctness (b : Behavior) (pd : Dict) (i j : Nat)
    (hij : i < j) (hj : j < (seqTrace b pd).length) (k : Key)
    (hk : (((seqTrace b pd).get ⟨i, Nat.lt_trans hij hj⟩).2.2).hasKey k) :
    (((seqTrace b pd).get ⟨j, hj⟩).2.1).hasKey k := by
  by_cases hd : Seq.deploySucceeded b pd
  · have hj9 : j < 9 := by simpa [seqTrace, hd] using hj
    simp only [seqTrace, if_pos hd] at hk ⊢
    interval_cases j <;> interval_cases i <;>
      (simp_all [Seq.varuna_result, Seq.agni_input, Seq.agni_result,
        Seq.yama_input, Seq.yama_result, Seq.tf_input, Seq.tf_result,
        Seq.vayu_input, Seq.vayu_result, Seq.hanuman_input, Seq.hanuman_result,
        Seq.krishna_input, Seq.krishna_result, Seq.obs_input, Seq.obs_result,
        Seq.opt_input, Seq.opt_result])
  · have hj7 : j < 7 := by simpa [seqTrace, hd] using hj
    simp only [seqTrace, if_neg hd] at hk ⊢
    interval_cases j <;> interval_cases i <;>
      (simp_all [Seq.varuna_result, Seq.agni_input, Seq.agni_result,
        Seq.yama_input, Seq.yama_result, Seq.tf_input, Seq.tf_result,
        Seq.vayu_input, Seq.vayu_result, Seq.hanuman_input, Seq.hanuman_result,
        Seq.krishna_input, Seq.krishna_result])

/-- Witness for C8: with `xBehavior`, the key `"x"` produced by stage 0
(code-analysis) is present in the input of stage 6 (governance). -/
theorem C8_merge_correctness_witness :
    (((seqTrace xBehavior Dict.empty).get ⟨6, by decide⟩).2.1).hasKey "x" :=
  C8_merge_correctness xBehavior Dict.empty 0 6 (by decide) (by decide) "x" (by decide)

/-- The claim of C7 fails at a concrete input: with `varuna`, `agni`, `yama`
and `terraform` completed and `vayu` running, four agents have most recent
status `'completed'`, but the loop breaks at `vayu` before reaching
`terraform`, so `get_progress` reports 3 completed agents and
`3/9*100 ≠ 4/9*100`. -/
theorem C7_counterexample :
    (get_progress_counts progressCounterexampleState).1 = 3 ∧
    claimedCompletedCount progressCounterexampleState = 4 ∧
    get_progress_percentage progressCounterexampleState ≠
      claimedPercentage progressCounterexampleState ∧
    (get_progress_counts progressCounterexampleState).2 = "Running Vayu Agent" := by
  refine ⟨by decide, by decide, ?_, by decide⟩
  have h1 : get_progress_percentage progressCounterexampleState = 300 / 9 := by
    rw [get_progress_percentage,
      show (get_progress_counts progressCounterexampleState).1 = 3 from by decide,
      show agentsRegistrationOrder.length = 9 from by decide]
    norm_num
  have h2 : claimedPercentage progressCounterexampleState = 400 / 9 := by
    rw [claimedPercentage,
      show claimedCompletedCount progressCounterexampleState = 4 from by decide,
      show agentsRegistrationOrder.length = 9 from by decide]
    norm_num
  rw [h1, h2]
  norm_num

theorem progressLoop_spec (statuses : List (String × String)) :
    ∀ (agents : List String) (acc : Nat),
      progressLoop statuses agents acc =
        (acc + ((agents.takeWhile (fun a => ! isBlocking statuses a)).filter
            (fun a => agentStatus statuses a == "completed")).length,
         match agents.find? (isBlocking statuses) with
         | none => "Starting"
         | some a =>
             if agentStatus statuses a = "running" ∨ agentStatus statuses a = "retrying"
             then "Running " ++ titleWord a ++ " Agent"
             else "Failed at " ++ titleWord a ++ " Agent") := by
  intro agents
  induction agents with
  | nil => intro acc; simp [progressLoop]
  | cons a rest ih =>
      intro acc
      by_cases hc : agentStatus statuses a = "completed"
      · have hb : isBlocking statuses a = false := by
          simp [isBlocking, hc]
        simp only [progressLoop, if_pos hc, ih, List.takeWhile_cons, hb,
          List.find?_cons, Bool.not_false, if_true, cond_false]
        refine Prod.ext ?_ rfl
        simp [hc]
        omega
      · by_cases hr : agentStatus statuses a = "running" ∨ agentStatus statuses a = "retrying"
        · have hb : isBlocking statuses a = true := by
            rcases hr with h | h <;> simp [isBlocking, h]
          simp only [progressLoop, if_neg hc, if_pos hr, List.takeWhile_cons, hb,
            List.find?_cons, Bool.not_true, cond_true, if_pos hr]
          simp
        · by_cases hf : agentStatus statuses a = "failed"
          · have hb : isBlocking statuses a = true := by
              simp [isBlocking, hf]
            simp only [progressLoop, if_neg hc, if_neg hr, if_pos hf,
              List.takeWhile_cons, hb, List.find?_cons, cond_true, if_neg hr]
            simp
          · have hb : isBlocking statuses a = false := by
              simp only [isBlocking]
              push_neg at hr
              obtain ⟨h1, h2⟩ := hr
              simp [h1, h2, hf]
            simp only [progressLoop, if_neg hc, if_neg hr, if_neg hf, ih,
              List.takeWhile_cons, hb, List.find?_cons, Bool.not_false, if_true,
              cond_false]
            refine Prod.ext ?_ rfl
            simp [hc]

/-- C7 amended: `get_progress` reports as `completed_agents` the number of
registered agents whose recorded status is `'completed'` among only those
agents that precede, in registration order, the first agent whose status is
`'running'`/`'retrying'`/`'failed'` (completed agents after that point are
not counted); `percentage` is that count over the total, times 100; and
`current_stage` names the first such blocking agent — `"Running <Agent>"`
for `running`/`retrying`, `"Failed at <Agent> Agent"` for `failed`. -/
theorem C7_amended (statuses : List (String × String)) :
    (get_progress_counts statuses).1 =
      ((agentsRegistrationOrder.takeWhile (fun a => ! isBlocking statuses a)).filter
        (fun a => agentStatus statuses a == "completed")).length ∧
    (get_progress_counts statuses).2 =
      (match agentsRegistrationOrder.find? (isBlocking statuses) with
       | none => "Starting"
       | some a =>
           if agentStatus statuses a = "running" ∨ agentStatus statuses a = "retrying"
           then "Running " ++ titleWord a ++ " Agent"
           else "Failed at " ++ titleWord a ++ " Agent") ∧
    get_progress_percentage statuses =
      (((agentsRegistrationOrder.takeWhile (fun a => ! isBlocking statuses a)).filter
          (fun a => agentStatus statuses a == "completed")).length : ℚ) / 9 * 100 := by
  have h := progressLoop_spec statuses agentsRegistrationOrder 0
  refine ⟨?_, ?_, ?_⟩
  · simp [get_progress_counts, h]
  · simp [get_progress_counts, h]
  · simp [get_progress_percentage, get_progress_counts, h]
    norm_num [agentsRegistrationOrder]

end VedOps
